import Mathlib

/-!
Shallow embedding of the webcam-resolution core of the OctoApp plugin
(src/octoapp/webcamhelper.py).  Byte buffers are `List Nat` (each entry one
byte), Python strings are Lean `String` / `List Char`, Python `None` is
`Option.none`, Python exceptions that can escape a function are `Except`.
External collaborators (the HTTP executor, the platform camera source, the
persisted settings file) are modelled as an explicit environment, following
the interface contracts of the spec (section 6).
-/

namespace OctoApp

/-! Python string primitives used by webcamhelper.py.  `str.lower` is
modelled on ASCII letters (Lean's `Char.toLower`), which covers every use in
the source (URLs, header names). -/

def pyLower (s : List Char) : List Char := s.map Char.toLower

def pyLowerStr (s : String) : String := String.mk (pyLower s.data)

/-- Models Python `haystack.find(pat)` (restricted to found/not-found):
index of the first occurrence of `pat` in the suffix of the haystack,
accumulating the absolute position in `i`. -/
def findSubAux (pat : List Char) : List Char → Nat → Option Nat
  | [], i => if pat.isPrefixOf ([] : List Char) then some i else none
  | c :: t, i => if pat.isPrefixOf (c :: t) then some i else findSubAux pat t (i + 1)

/-- Python `haystack.find(pat)`: `some i` for the first occurrence, `none`
for Python's `-1`. -/
def pyFind (hay pat : List Char) : Option Nat := findSubAux pat hay 0

/-- Python `haystack.find(pat, start)`. -/
def pyFindFrom (hay pat : List Char) (start : Nat) : Option Nat :=
  (pyFind (hay.drop start) pat).map (· + start)

/-- Models Python `s.split(sep)` for a non-empty separator; the fuel is an
upper bound on the number of splits (each split consumes at least one
character of the input). -/
def splitSeqAux (sep : List Char) : Nat → List Char → List (List Char)
  | 0, l => [l]
  | fuel + 1, l =>
    match pyFind l sep with
    | none => [l]
    | some i => l.take i :: splitSeqAux sep fuel (l.drop (i + sep.length))

def pySplitSeq (l sep : List Char) : List (List Char) := splitSeqAux sep l.length l

/-- Characters Python's `str.strip()` removes (the `str.isspace` set that can
appear in decoded HTTP header text). -/
def pyIsSpace (c : Char) : Bool :=
  c.toNat ∈ [0x09, 0x0A, 0x0B, 0x0C, 0x0D, 0x1C, 0x1D, 0x1E, 0x1F, 0x20,
              0x85, 0xA0, 0x1680, 0x2000, 0x2001, 0x2002, 0x2003, 0x2004,
              0x2005, 0x2006, 0x2007, 0x2008, 0x2009, 0x200A, 0x2028,
              0x2029, 0x202F, 0x205F, 0x3000]

/-- Python `s.strip()`. -/
def pyStrip (l : List Char) : List Char :=
  ((l.dropWhile pyIsSpace).reverse.dropWhile pyIsSpace).reverse

/-- Digit run of a Python base-10 integer literal: digits with single
underscores allowed between digits. -/
def parseDigitsAux (acc : Nat) : List Char → Option Nat
  | [] => some acc
  | '_' :: c :: cs =>
    if c.isDigit then parseDigitsAux (acc * 10 + (c.toNat - 48)) cs else none
  | ['_'] => none
  | c :: cs =>
    if c.isDigit then parseDigitsAux (acc * 10 + (c.toNat - 48)) cs else none

def parseNatPy : List Char → Option Nat
  | [] => none
  | c :: cs => if c.isDigit then parseDigitsAux (c.toNat - 48) cs else none

/-- Models Python `int(s)` on an already-stripped string (ASCII digits, an
optional sign, underscores between digits); `none` models the `ValueError`
that a non-numeric string raises. -/
def parseIntPy (l : List Char) : Option Int :=
  match l with
  | '+' :: rest => (parseNatPy rest).map Int.ofNat
  | '-' :: rest => (parseNatPy rest).map (fun n => -(n : Int))
  | _ => (parseNatPy l).map Int.ofNat

/-- Models Python `bytes.decode(errors="ignore")`: UTF-8 decoding where each
maximal ill-formed subpart is dropped.  The fuel argument is the number of
bytes still allowed to be consumed; every step consumes at least one byte. -/
def utf8DecodeIgnoreAux : Nat → List Nat → List Char
  | 0, _ => []
  | _, [] => []
  | fuel + 1, b :: rest =>
    if b < 0x80 then Char.ofNat b :: utf8DecodeIgnoreAux fuel rest
    else if b < 0xC2 then utf8DecodeIgnoreAux fuel rest
    else if b < 0xE0 then
      match rest with
      | c1 :: rest2 =>
        if 0x80 ≤ c1 ∧ c1 ≤ 0xBF then
          Char.ofNat ((b - 0xC0) * 64 + (c1 - 0x80)) :: utf8DecodeIgnoreAux fuel rest2
        else utf8DecodeIgnoreAux fuel rest
      | [] => []
    else if b < 0xF0 then
      match rest with
      | c1 :: rest2 =>
        let lo1 : Nat := if b = 0xE0 then 0xA0 else 0x80
        let hi1 : Nat := if b = 0xED then 0x9F else 0xBF
        if lo1 ≤ c1 ∧ c1 ≤ hi1 then
          match rest2 with
          | c2 :: rest3 =>
            if 0x80 ≤ c2 ∧ c2 ≤ 0xBF then
              Char.ofNat ((b - 0xE0) * 4096 + (c1 - 0x80) * 64 + (c2 - 0x80)) ::
                utf8DecodeIgnoreAux fuel rest3
            else utf8DecodeIgnoreAux fuel rest2
          | [] => []
        else utf8DecodeIgnoreAux fuel rest
      | [] => []
    else if b < 0xF5 then
      match rest with
      | c1 :: rest2 =>
        let lo1 : Nat := if b = 0xF0 then 0x90 else 0x80
        let hi1 : Nat := if b = 0xF4 then 0x8F else 0xBF
        if lo1 ≤ c1 ∧ c1 ≤ hi1 then
          match rest2 with
          | c2 :: rest3 =>
            if 0x80 ≤ c2 ∧ c2 ≤ 0xBF then
              match rest3 with
              | c3 :: rest4 =>
                if 0x80 ≤ c3 ∧ c3 ≤ 0xBF then
                  Char.ofNat ((b - 0xF0) * 262144 + (c1 - 0x80) * 4096 +
                      (c2 - 0x80) * 64 + (c3 - 0x80)) :: utf8DecodeIgnoreAux fuel rest4
                else utf8DecodeIgnoreAux fuel rest3
              | [] => []
            else utf8DecodeIgnoreAux fuel rest2
          | [] => []
        else utf8DecodeIgnoreAux fuel rest
      | [] => []
    else utf8DecodeIgnoreAux fuel rest

def utf8DecodeIgnore (l : List Nat) : List Char := utf8DecodeIgnoreAux l.length l

/-- Python `buf[:i]` for a possibly negative `i` (a negative bound counts
from the end, clamped at zero). -/
def pySliceTo (l : List Nat) (i : Int) : List Nat :=
  if 0 ≤ i then l.take i.toNat else l.take (l.length - (-i).toNat)

/-! Data model.  `WebcamSettingItem` mirrors the value object of
webcamhelper.py; `HttpResponse`/`OctoResult` mirror the HTTP executor's
result object (spec section 6): a response holds a status code, a header
map (association list in insertion order) and the raw byte stream, and a
result optionally holds a response, the resolved URL and a fully-buffered
body. -/

structure WebcamSettingItem where
  Name : String
  SnapshotUrl : Option String
  StreamUrl : Option String
  FlipH : Bool
  FlipV : Bool
  Rotation : Nat
deriving Repr, DecidableEq

structure HttpResponse where
  status_code : Nat
  headers : List (String × String)
  raw : List Nat
deriving Repr, DecidableEq

structure OctoResult where
  Result : Option HttpResponse
  Url : String
  FullBodyBuffer : Option (List Nat)
deriving Repr, DecidableEq

/-- The external collaborators of one resolution request: the HTTP executor
(`MakeHttpCall`, keyed by URL; `none` models a failed call), the platform
camera source (`GetWebcamConfig`; `none` models failure or an exception,
which `ListWebcams` absorbs), and the in-memory default camera name. -/
structure Env where
  httpCall : String → Option OctoResult
  webcamConfig : Option (List WebcamSettingItem)
  defaultCameraName : Option String

/-- Models `WebcamHelper.ListWebcams`: a failed or empty configuration
resolves to `none`. -/
def listWebcams (env : Env) : Option (List WebcamSettingItem) :=
  match env.webcamConfig with
  | none => none
  | some a => if a.isEmpty then none else some a

/-- Models `WebcamHelper._GetWebcamSettingObj`: resolve an optional camera
name to a setting item.  An absent or empty name is replaced by the default
name; a named lookup is a case-insensitive scan falling back to index 0.
The `a[0]` accesses of the source are in-range here because `listWebcams`
only returns non-empty lists (an `IndexError` would be caught and mapped to
`none`, which is also what `head?` yields on `[]`). -/
def getWebcamSettingObj (env : Env) (cameraName : Option String) :
    Option WebcamSettingItem :=
  match listWebcams env with
  | none => none
  | some a =>
    let cameraName :=
      match cameraName with
      | none => env.defaultCameraName
      | some n => if n = "" then env.defaultCameraName else some n
    match cameraName with
    | some n =>
      match a.find? (fun i => pyLowerStr i.Name = pyLowerStr n) with
      | some itm => some itm
      | none => a.head?
    | none => a.head?

/-- Models `WebcamHelper.GetSnapshotUrl`. -/
def getSnapshotUrl (env : Env) (cameraName : Option String) : Option String :=
  (getWebcamSettingObj env cameraName).bind (fun o => o.SnapshotUrl)

/-- Models `WebcamHelper.GetWebcamStreamUrl`. -/
def getWebcamStreamUrl (env : Env) (cameraName : Option String) : Option String :=
  (getWebcamSettingObj env cameraName).bind (fun o => o.StreamUrl)

/-! MJPEG frame extraction (`WebcamHelper._GetSnapshotFromStream`). -/

/-- Models the header loop of lines 239-245: the value of the first response
header whose lower-cased name is `content-type`, lower-cased, defaulting to
the empty string. -/
def respContentTypeLower (headers : List (String × String)) : String :=
  match headers.find? (fun p => pyLowerStr p.1 = "content-type") with
  | some p => pyLowerStr p.2
  | none => ""

/-- Models the part-header scan of lines 277-292: fold over the decoded
header lines, keeping the last parsed `content-length` value (initially 0)
and the last well-formed `content-type` value (initially absent).  A
`content-length` value that `int()` cannot parse raises `ValueError`,
modelled as `Except.error`, which the caller's `except` turns into a
failed extraction. -/
def scanPartHeadersAux : List (List Char) → Int → Option (List Char) →
    Except Unit (Int × Option (List Char))
  | [], n, ct => Except.ok (n, ct)
  | h :: t, n, ct =>
    let hl := pyLower h
    let ct2 :=
      if ("content-type".data.isPrefixOf hl) then
        let p := pySplitSeq h [':']
        if p.length = 2 then some (pyStrip (p.getD 1 [])) else ct
      else ct
    if ("content-length".data.isPrefixOf hl) then
      let p := pySplitSeq h [':']
      if p.length = 2 then
        match parseIntPy (pyStrip (p.getD 1 [])) with
        | none => Except.error ()
        | some v => scanPartHeadersAux t v ct2
      else scanPartHeadersAux t n ct2
    else scanPartHeadersAux t n ct2

/-- Models lines 302-327: assemble the frame buffer.  The first raw read
took (up to) 300 bytes; if the desired total exceeds what was read, read
exactly the remainder from the stream; over-long data is trimmed with a
Python slice. -/
def assembleFrameBuffer (raw : List Nat) (totalDesired : Int) : List Nat :=
  let dataBuffer := raw.take 300
  let toRead : Int := totalDesired - (dataBuffer.length : Int)
  let dataBuffer :=
    if 0 < toRead then dataBuffer ++ (raw.drop 300).take toRead.toNat else dataBuffer
  if totalDesired < (dataBuffer.length : Int) then pySliceTo dataBuffer totalDesired
  else dataBuffer

/-- Models the body of the `with response:` block of
`_GetSnapshotFromStream` (lines 235-344), given a status-200 response:
check the multipart content type, read 300 bytes, decode them permissively,
locate the `CRLF CRLF` terminator, scan the part headers, read the rest of
the frame and build the synthetic result.  Every failure (including the
`ValueError` of a malformed length and the short-read integrity check)
resolves to `none` for this tier; nothing is raised to the caller. -/
def extractFrame (resp : HttpResponse) (url : String) : Option OctoResult :=
  if ¬ ("multipart/".data.isPrefixOf (respContentTypeLower resp.headers).data) then
    none
  else
    let dataBuffer := resp.raw.take 300
    let headerStr := utf8DecodeIgnore dataBuffer
    match pyFind headerStr ['\r', '\n', '\r', '\n'] with
    | none => none
    | some idx =>
      let headerStrSize := idx + 4
      match scanPartHeadersAux (pySplitSeq headerStr ['\r', '\n']) 0 none with
      | Except.error _ => none
      | Except.ok (frameSizeInt, contentTypeOpt) =>
        match contentTypeOpt with
        | none => none
        | some contentType =>
          if frameSizeInt = 0 then none
          else
            let totalDesired : Int := frameSizeInt + (headerStrSize : Int)
            let buf := assembleFrameBuffer resp.raw totalDesired
            if (buf.length : Int) ≠ totalDesired then none
            else
              let imageBuffer := buf.drop headerStrSize
              some
                { Result := some
                    { status_code := 200
                      headers := [("content-type", String.mk contentType),
                                  ("content-length", toString imageBuffer.length)]
                      raw := resp.raw.drop (max buf.length 300) }
                  Url := url
                  FullBodyBuffer := some imageBuffer }

/-- Outcome of `_GetSnapshotFromStream`, with resource bookkeeping: whether
a live response object was obtained from the HTTP call, and whether that
response was closed before the function returned. -/
structure StreamFetchOut where
  result : Option OctoResult
  obtainedResponse : Bool
  closedResponse : Bool
deriving Repr, DecidableEq

/-- Models `WebcamHelper._GetSnapshotFromStream`.  The non-200 early return
of lines 227-232 happens before the `with response:` block is entered, so
that path returns without closing the response; every path inside the
`with` block (success, failure or exception) closes it, via the explicit
`close` of line 315 or the scope exit. -/
def getSnapshotFromStream (env : Env) (url : String) : StreamFetchOut :=
  match env.httpCall url with
  | none => ⟨none, false, false⟩
  | some octoHttpResult =>
    match octoHttpResult.Result with
    | none => ⟨none, false, false⟩
    | some response =>
      if response.status_code ≠ 200 then ⟨none, true, false⟩
      else ⟨extractFrame response url, true, true⟩

/-- Models `WebcamHelper._GetSnapshotInternal`: try the configured snapshot
URL first and keep the result only on HTTP 200; otherwise fall back to
extracting a frame from the stream URL resolved with no camera name (the
default camera). -/
def getSnapshotInternal (env : Env) (cameraName : Option String) : Option OctoResult :=
  let fallback :=
    match getWebcamStreamUrl env none with
    | none => none
    | some streamUrl => (getSnapshotFromStream env streamUrl).result
  match getSnapshotUrl env cameraName with
  | none => fallback
  | some snapshotUrl =>
    match env.httpCall snapshotUrl with
    | none => fallback
    | some octoHttpResult =>
      match octoHttpResult.Result with
      | none => fallback
      | some resp =>
        if resp.status_code = 200 then some octoHttpResult else fallback

/-- Models `WebcamHelper._GetWebcamStreamInternal`. -/
def getWebcamStreamInternal (env : Env) (cameraName : Option String) : Option OctoResult :=
  match getWebcamStreamUrl env cameraName with
  | some streamUrl => env.httpCall streamUrl
  | none => none

/-! JPEG header repair (`WebcamHelper._EnsureJpegHeaderInfo`). -/

/-- A byte of the APP0 identifier: rewritten to the replacement when zero,
kept otherwise (lines 486-496). -/
def fixByte (b repl : Nat) : Nat := if b = 0 then repl else b

/-- Models the short-circuit `needsChanges` read of line 476 on the six
bytes at `p`: `none` models the `IndexError` of an out-of-range read (only
reachable when an earlier byte did not already decide the answer). -/
def app0Needs (buf : List Nat) (p : Nat) : Option Bool :=
  match buf.get? p with
  | none => none
  | some b0 =>
    if b0 = 0 then some true else
    match buf.get? (p + 1) with
    | none => none
    | some b1 =>
      if b1 = 0 then some true else
      match buf.get? (p + 2) with
      | none => none
      | some b2 =>
        if b2 = 0 then some true else
        match buf.get? (p + 3) with
        | none => none
        | some b3 =>
          if b3 = 0 then some true else
          match buf.get? (p + 4) with
          | none => none
          | some b4 =>
            if b4 = 0 then some true else
            match buf.get? (p + 5) with
            | none => none
            | some b5 => some (b5 != 0)

/-- Models the identifier rewrite of lines 485-504: each zero byte among the
four at `p` becomes the matching ASCII byte of `JFIF` and the fifth byte is
forced to zero; the sixth byte is not touched.  The source edits a copied
`bytearray` with reads interleaved, so an `IndexError` partway through
discards all edits and the original buffer is returned: the rewrite is
all-or-nothing, captured by requiring all five positions to be in range. -/
def jfifRewrite (buf : List Nat) (p : Nat) : List Nat :=
  match buf.get? p, buf.get? (p + 1), buf.get? (p + 2), buf.get? (p + 3), buf.get? (p + 4) with
  | some b0, some b1, some b2, some b3, some _ =>
    buf.take p ++
      [fixByte b0 0x4A, fixByte b1 0x46, fixByte b2 0x49, fixByte b3 0x46, 0] ++
      buf.drop (p + 5)
  | _, _, _, _, _ => buf

/-- Models the marker-segment walk of lines 453-515.  Each iteration either
returns or advances `pos` by at least two, so fuel `buf.length + 1` never
runs out before the `while` condition fails; fuel exhaustion returns the
buffer unchanged, the same as the loop's normal exit (line 524).  Any
modelled `IndexError` (out-of-range segment-length read) returns the
original buffer, as the source's `except` does. -/
def ensureJpegScan : Nat → List Nat → Nat → List Nat
  | 0, buf, _ => buf
  | fuel + 1, buf, pos =>
    if buf.length ≤ pos then buf
    else if buf.length ≤ pos + 1 then buf
    else if buf.getD pos 0 ≠ 0xFF then buf
    else
      let segmentType := buf.getD (pos + 1) 0
      if segmentType = 0xDA then buf
      else if segmentType = 0xE0 then
        match app0Needs buf (pos + 4) with
        | none => buf
        | some false => buf
        | some true => jfifRewrite buf (pos + 4)
      else
        match buf.get? (pos + 2), buf.get? (pos + 3) with
        | some s1, some s2 => ensureJpegScan fuel buf (pos + 2 + (s1 * 256 + s2))
        | _, _ => buf

/-- Models the buffer transformation of `_EnsureJpegHeaderInfo` (lines
445-524): a buffer not starting with the JPEG SOI marker `FF D8` is left
unchanged, otherwise the APP0 identifier is repaired in place. -/
def ensureJpegBuf (buf : List Nat) : List Nat :=
  match buf with
  | b0 :: b1 :: _ =>
    if b0 = 0xFF ∧ b1 = 0xD8 then ensureJpegScan (buf.length + 1) buf 2 else buf
  | _ => buf

/-- Modelled from the spec: `RequestsUtils.ReadAllContentFromStreamResponse`
is a collaborator whose source is not under src/; per spec sections 4.7 and
6 it fully buffers the response body (the already-buffered body if present,
else the whole raw stream). -/
def readAllContent (o : OctoResult) : Option (List Nat) :=
  match o.FullBodyBuffer, o.Result with
  | some b, _ => some b
  | none, some r => some r.raw
  | none, none => none

def setFullBodyBuffer (o : OctoResult) (b : List Nat) : OctoResult :=
  { o with FullBodyBuffer := some b }

/-- Models `WebcamHelper._EnsureJpegHeaderInfo` at the result level: absent
results pass through, the body is fully buffered, and the final buffer is
the repaired one (the source installs the unrepaired buffer first and the
repaired `bytearray` on the rewrite path; the net effect on every path is
`ensureJpegBuf`). -/
def ensureJpegHeaderInfo (octoHttpResult : Option OctoResult) : Option OctoResult :=
  match octoHttpResult with
  | none => none
  | some o =>
    match o.Result with
    | none => some o
    | some _ =>
      match readAllContent o with
      | none => none
      | some buf => some (setFullBodyBuffer o (ensureJpegBuf buf))

/-! Transform-header injection and the public snapshot/stream entry
points. -/

/-- Python dict assignment on the header map (requests keeps a replaced key
at its original position; lookup is case-insensitive). -/
def pySetHeader : List (String × String) → String → String → List (String × String)
  | [], k, v => [(k, v)]
  | (k0, v0) :: t, k, v =>
    if pyLowerStr k0 = pyLowerStr k then (k, v) :: t
    else (k0, v0) :: pySetHeader t k v

def c_OeWebcamTransformHeaderKey : String := "x-oe-webcam-transform"

/-- Models `WebcamHelper._AddOeWebcamTransformHeader`.  When the result
carries a response, the source reads `settings.FlipH` without a null check;
an unresolvable camera therefore raises `AttributeError`, modelled as
`Except.error`. -/
def addOeWebcamTransformHeader (env : Env) (octoHttpResult : Option OctoResult)
    (cameraName : Option String) : Except String (Option OctoResult) :=
  match octoHttpResult with
  | none => Except.ok none
  | some o =>
    match o.Result with
    | none => Except.ok (some o)
    | some resp =>
      match getWebcamSettingObj env cameraName with
      | none => Except.error "AttributeError: NoneType object has no attribute FlipH"
      | some settings =>
        let transformStr :=
          if settings.FlipH || settings.FlipV || settings.Rotation ≠ 0 then
            (if settings.FlipH then "fliph " else "") ++
            (if settings.FlipV then "flipv " else "") ++
            (if settings.Rotation ≠ 0 then "rotate=" ++ toString settings.Rotation ++ " "
             else "")
          else "none"
        let resp2 : HttpResponse :=
          { resp with headers :=
              pySetHeader resp.headers c_OeWebcamTransformHeaderKey transformStr }
        Except.ok (some { o with Result := some resp2 })

/-- Models `WebcamHelper.GetSnapshot`. -/
def getSnapshot (env : Env) (cameraName : Option String) :
    Except String (Option OctoResult) :=
  addOeWebcamTransformHeader env
    (ensureJpegHeaderInfo (getSnapshotInternal env cameraName)) cameraName

/-- Models `WebcamHelper.GetWebcamStream`. -/
def getWebcamStream (env : Env) (cameraName : Option String) :
    Except String (Option OctoResult) :=
  addOeWebcamTransformHeader env (getWebcamStreamInternal env cameraName) cameraName

/-! Oracle-request dispatch. -/

def isSnapshotOracleRequest (requestHeadersDict : List (String × String)) : Bool :=
  requestHeadersDict.any (fun p => p.1 = "oe-snapshot")

def isWebcamStreamOracleRequest (requestHeadersDict : List (String × String)) : Bool :=
  requestHeadersDict.any (fun p => p.1 = "oe-webcamstream")

def getOracleRequestCameraName (requestHeadersDict : List (String × String)) :
    Option String :=
  (requestHeadersDict.find? (fun p => p.1 = "oe-webcam-name")).map (fun p => p.2)

/-- Models `WebcamHelper.MakeSnapshotOrWebcamStreamRequest`: the snapshot
sentinel is checked first, then the stream sentinel; a request with neither
raises to the caller. -/
def makeSnapshotOrWebcamStreamRequest (env : Env)
    (sendHeaders : List (String × String)) : Except String (Option OctoResult) :=
  let cameraNameOpt := getOracleRequestCameraName sendHeaders
  if isSnapshotOracleRequest sendHeaders then getSnapshot env cameraNameOpt
  else if isWebcamStreamOracleRequest sendHeaders then getWebcamStream env cameraNameOpt
  else Except.error
    "Webcam helper MakeSnapshotOrWebcamStreamRequest was called but the request did not have the oracle headers?"

/-! URL quirk normalizers. -/

/-- Models `WebcamHelper.DetectCameraStreamerWebRTCStreamUrlAndTranslate`.
The `Except` codomain records that the source can in principle raise; this
function guards its input and never does. -/
def detectCameraStreamerWebRTCStreamUrlAndTranslate (streamUrl : Option String) :
    Except String (Option String) :=
  match streamUrl with
  | none => Except.ok none
  | some u =>
    let streamUrlLower := pyLower u.data
    match pyFind streamUrlLower "/webrtc".data with
    | none => Except.ok none
    | some webRtcLocation =>
      match pyFindFrom streamUrlLower ['/'] (webRtcLocation + 1) with
      | some _ => Except.ok none
      | none => Except.ok (some (String.mk (u.data.take webRtcLocation) ++ "/stream"))

/-- Models `WebcamHelper.FixMissingSlashInWebcamUrlIfNeeded`.  The source
calls `webcamUrl.lower()` without a null guard, so an absent URL raises
`AttributeError`.  The character read just before `?action=` is in range
because that substring occurs at a positive index. -/
def fixMissingSlashInWebcamUrlIfNeeded (webcamUrl : Option String) :
    Except String (Option String) :=
  match webcamUrl with
  | none => Except.error "AttributeError: NoneType object has no attribute lower"
  | some u =>
    let streamUrlLower := pyLower u.data
    match pyFind streamUrlLower "webcam".data, pyFind streamUrlLower "?action=".data with
    | some _, some actionLocation =>
      if actionLocation = 0 then Except.ok none
      else if streamUrlLower.getD (actionLocation - 1) ' ' = '/' then Except.ok none
      else Except.ok (some (String.mk
        (u.data.take actionLocation ++ ['/'] ++ u.data.drop actionLocation)))
    | _, _ => Except.ok none

/-! Default camera name store. -/

/-- The persisted-preference state: the in-memory default name and the
`DefaultWebcamName` value of the webcam-settings.json file (`none` when the
file does not exist). -/
structure HelperState where
  DefaultCameraName : Option String
  SettingsFile : Option String
deriving Repr, DecidableEq

/-- Models `WebcamHelper.SetDefaultCameraName` on the successful-persistence
path: lower-case the name, update the in-memory value, write the JSON file. -/
def setDefaultCameraName (st : HelperState) (name : String) : HelperState :=
  let n := pyLowerStr name
  { st with DefaultCameraName := some n, SettingsFile := some n }

/-- Models `WebcamHelper.GetDefaultCameraName`. -/
def getDefaultCameraName (st : HelperState) : Option String := st.DefaultCameraName

/-- Models `WebcamHelper._LoadDefaultCameraName` for files written by
`SetDefaultCameraName`: a missing file or an empty stored name leaves no
default. -/
def loadDefaultCameraName (file : Option String) : Option String :=
  match file with
  | none => none
  | some name => if name.length = 0 then none else some name

/-- A simulated process restart: the in-memory default is re-read from the
persisted file. -/
def reloadHelperState (st : HelperState) : HelperState :=
  { st with DefaultCameraName := loadDefaultCameraName st.SettingsFile }

/-! Theorems. -/

/-- An environment whose stream URL answers with an HTTP 404 response. -/
def envC5 : Env :=
  { httpCall := fun u =>
      if u = "http://cam/stream" then
        some { Result := some { status_code := 404, headers := [], raw := [] }
               Url := "http://cam/stream", FullBodyBuffer := none }
      else none
    webcamConfig := none
    defaultCameraName := none }

/-- Claim C5: the claim says every execution path of the frame extractor
that obtains a live HTTP response closes it before returning.  The code
violates this: the non-200 status check of lines 227-232 returns before
the `with response:` block of line 235 is entered, so a response with a bad
status is left open.  This theorem evaluates the extractor on a stream URL
whose GET yields a 404 response: a response is obtained
(`obtainedResponse = true`) and the function returns without closing it
(`closedResponse = false`). -/
theorem claim_C5 :
    getSnapshotFromStream envC5 "http://cam/stream" =
      { result := none, obtainedResponse := true, closedResponse := false } := by
  rfl

/-- Claim C6: the WebRTC translator.  If `/webrtc` occurs (first occurrence
at `i` in the lower-cased URL) and no `/` follows it, the result is the
prefix before `/webrtc` concatenated with `/stream`; if a `/` follows the
occurrence, or `/webrtc` does not occur, the URL is left unchanged (`none`
sentinel). -/
theorem claim_C6 (u : String) :
    (∀ i, pyFind (pyLower u.data) "/webrtc".data = some i →
       pyFindFrom (pyLower u.data) ['/'] (i + 1) = none →
       detectCameraStreamerWebRTCStreamUrlAndTranslate (some u) =
         Except.ok (some (String.mk (u.data.take i) ++ "/stream"))) ∧
    (∀ i j, pyFind (pyLower u.data) "/webrtc".data = some i →
       pyFindFrom (pyLower u.data) ['/'] (i + 1) = some j →
       detectCameraStreamerWebRTCStreamUrlAndTranslate (some u) = Except.ok none) ∧
    (pyFind (pyLower u.data) "/webrtc".data = none →
       detectCameraStreamerWebRTCStreamUrlAndTranslate (some u) = Except.ok none) := by
  refine ⟨?_, ?_, ?_⟩
  · intro i h1 h2
    simp only [detectCameraStreamerWebRTCStreamUrlAndTranslate, h1, h2]
  · intro i j h1 h2
    simp only [detectCameraStreamerWebRTCStreamUrlAndTranslate, h1, h2]
  · intro h1
    simp only [detectCameraStreamerWebRTCStreamUrlAndTranslate, h1]

/-- Witness for C6 at the spec's example URLs. -/
theorem claim_C6_witness :
    detectCameraStreamerWebRTCStreamUrlAndTranslate (some "http://h/webrtc") =
      Except.ok (some "http://h/stream") ∧
    detectCameraStreamerWebRTCStreamUrlAndTranslate (some "http://h/webrtc/extra") =
      Except.ok none := by
  constructor
  · have h := (claim_C6 "http://h/webrtc").1 8 (by decide) (by decide)
    exact h.trans (by rfl)
  · exact (claim_C6 "http://h/webrtc/extra").2.1 8 15 (by decide) (by decide)

/-- Counterexample to claim C7: the claim says both URL quirk normalizers
are total for every input including an absent URL.
`FixMissingSlashInWebcamUrlIfNeeded` calls `webcamUrl.lower()` without a
null guard (line 577), so an absent URL raises `AttributeError` instead of
returning a sentinel. -/
theorem claim_C7_counterexample :
    fixMissingSlashInWebcamUrlIfNeeded none =
      Except.error "AttributeError: NoneType object has no attribute lower" := by
  rfl

/-- Claim C7 as amended: `DetectCameraStreamerWebRTCStreamUrlAndTranslate`
never throws on any input including an absent URL, and
`FixMissingSlashInWebcamUrlIfNeeded` never throws on any string input (it
throws only on an absent URL). -/
theorem claim_C7 :
    (∀ u : Option String,
       (detectCameraStreamerWebRTCStreamUrlAndTranslate u).isOk = true) ∧
    (∀ s : String, (fixMissingSlashInWebcamUrlIfNeeded (some s)).isOk = true) := by
  constructor
  · intro u
    cases u with
    | none => rfl
    | some v =>
      simp only [detectCameraStreamerWebRTCStreamUrlAndTranslate]
      cases h1 : pyFind (pyLower v.data) "/webrtc".data with
      | none => rfl
      | some i =>
        cases h2 : pyFindFrom (pyLower v.data) ['/'] (i + 1) with
        | none => simp [h2, Except.isOk, Except.toBool]
        | some j => simp [h2, Except.isOk, Except.toBool]
  · intro s
    simp only [fixMissingSlashInWebcamUrlIfNeeded]
    cases h1 : pyFind (pyLower s.data) "webcam".data with
    | none => rfl
    | some w =>
      cases h2 : pyFind (pyLower s.data) "?action=".data with
      | none => rfl
      | some a =>
        by_cases h3 : a = 0
        · simp [h3, Except.isOk, Except.toBool]
        · simp only [List.getD] at h3 ⊢
          by_cases h4 : (pyLower s.data)[a - 1]?.getD ' ' = '/' <;>
            simp [h3, h4, Except.isOk, Except.toBool]

/-- Claim C8: resolving an explicit camera name that matches no entry of a
non-empty camera list (case-insensitively) yields the item at index 0,
never `none`. -/
theorem claim_C8 (env : Env) (a : List WebcamSettingItem) (name : String)
    (hcfg : env.webcamConfig = some a) (hne : a ≠ []) (hname : name ≠ "")
    (hmiss : ∀ itm ∈ a, pyLowerStr itm.Name ≠ pyLowerStr name) :
    getWebcamSettingObj env (some name) = a.head? ∧
    (getWebcamSettingObj env (some name)).isSome = true := by
  have hfind : a.find? (fun i => pyLowerStr i.Name = pyLowerStr name) = none := by
    rw [List.find?_eq_none]
    intro x hx
    simp only [decide_eq_true_eq]
    exact hmiss x hx
  cases a with
  | nil => exact absurd rfl hne
  | cons x t =>
    constructor
    · simp only [getWebcamSettingObj, listWebcams, hcfg, List.isEmpty_cons,
        Bool.false_eq_true, if_false, hname, if_neg, hfind]
    · simp only [getWebcamSettingObj, listWebcams, hcfg, List.isEmpty_cons,
        Bool.false_eq_true, if_false, hname, if_neg, hfind, List.head?,
        Option.isSome_some]

/-- Witness for C8: a two-camera list and the unknown name `nosuch`. -/
def camsC8 : List WebcamSettingItem :=
  [{ Name := "CamA", SnapshotUrl := some "snapA", StreamUrl := some "streamA",
     FlipH := false, FlipV := false, Rotation := 0 },
   { Name := "CamB", SnapshotUrl := some "snapB", StreamUrl := some "streamB",
     FlipH := true, FlipV := false, Rotation := 90 }]

def envC8 : Env :=
  { httpCall := fun _ => none, webcamConfig := some camsC8,
    defaultCameraName := some "camb" }

theorem claim_C8_witness :
    getWebcamSettingObj envC8 (some "nosuch") = camsC8.head? := by
  exact (claim_C8 envC8 camsC8 "nosuch" rfl (by decide) (by decide)
    (by decide)).1

/-- Counterexample to claim C9: the claim quantifies over every name
string, but setting the empty name and reloading yields no default (the
loader treats an empty stored name as absent, line 636), not the
lower-cased name `""`. -/
theorem claim_C9_counterexample :
    getDefaultCameraName (reloadHelperState (setDefaultCameraName
        { DefaultCameraName := none, SettingsFile := none } "")) = none ∧
    (none : Option String) ≠ some (pyLowerStr "") := by
  exact ⟨rfl, by decide⟩

/-- Claim C9 as amended: for every non-empty name, setting the default
camera name and then simulating a process restart by reloading from the
persisted file yields the lower-cased name. -/
theorem claim_C9 (st : HelperState) (name : String) (h : name ≠ "") :
    getDefaultCameraName (reloadHelperState (setDefaultCameraName st name)) =
      some (pyLowerStr name) := by
  have hlen : (pyLowerStr name).length ≠ 0 := by
    have hd : name.data ≠ [] := by
      intro hdata
      apply h
      cases name
      simp_all
    simp only [pyLowerStr, pyLower]
    intro hzero
    exact hd (List.eq_nil_of_length_eq_zero (by simpa using hzero))
  simp [getDefaultCameraName, reloadHelperState, setDefaultCameraName,
    loadDefaultCameraName, hlen]

/-- Witness for C9 at the spec's example: `Cam1` round-trips to `cam1`. -/
theorem claim_C9_witness :
    getDefaultCameraName (reloadHelperState (setDefaultCameraName
        { DefaultCameraName := none, SettingsFile := none } "Cam1")) = some "cam1" := by
  have h := claim_C9 { DefaultCameraName := none, SettingsFile := none } "Cam1"
    (by decide)
  exact h.trans (by rfl)

/-- The snapshot tier of `_GetSnapshotInternal` did not produce a successful
(HTTP 200) result: no snapshot URL is configured, or the HTTP call failed,
or it carried no response object, or the response status is not 200. -/
def snapshotTierFailed (env : Env) (cameraName : Option String) : Prop :=
  getSnapshotUrl env cameraName = none ∨
  ∃ u, getSnapshotUrl env cameraName = some u ∧
    (env.httpCall u = none ∨
     ∃ octo, env.httpCall u = some octo ∧
       (octo.Result = none ∨
        ∃ resp, octo.Result = some resp ∧ resp.status_code ≠ 200))

/-- Claim C1: for every camera name, the snapshot tier is attempted first
and its result is returned exactly when the call produced a response with
status 200; on any other outcome the fallback extracts a frame from the
stream URL of the camera resolved with no name (the default camera, not
necessarily the named one), and if no stream URL is configured or the
extraction fails the function returns `none` (both captured by the fallback
expression, whose extraction result is `none` on failure). -/
theorem claim_C1 (env : Env) (cameraName : Option String) :
    (∀ u octo resp, getSnapshotUrl env cameraName = some u →
       env.httpCall u = some octo → octo.Result = some resp →
       resp.status_code = 200 →
       getSnapshotInternal env cameraName = some octo) ∧
    (snapshotTierFailed env cameraName →
       getSnapshotInternal env cameraName =
         match getWebcamStreamUrl env none with
         | none => none
         | some streamUrl => (getSnapshotFromStream env streamUrl).result) := by
  constructor
  · intro u octo resp hu hcall hres hstatus
    simp only [getSnapshotInternal, hu, hcall, hres, hstatus, if_pos]
  · intro hfail
    rcases hfail with hnone | ⟨u, hu, hrest⟩
    · simp only [getSnapshotInternal, hnone]
    · rcases hrest with hcallN | ⟨octo, hcall, hresN | ⟨resp, hres, hstatus⟩⟩
      · simp only [getSnapshotInternal, hu, hcallN]
      · simp only [getSnapshotInternal, hu, hcall, hresN]
      · simp only [getSnapshotInternal, hu, hcall, hres, hstatus, if_neg,
          if_false]

/-- Witness environment for C1: the named camera `CamB` has its own
snapshot and stream URLs, the default camera `CamA` has a different stream
URL.  The snapshot URL answers 404; `CamB`'s own stream URL would answer
with a perfectly good multipart response, while the default stream URL
fails.  The overall result is `none`, which shows the fallback queried the
default camera's stream URL and not the named camera's. -/
def respC1ok : HttpResponse :=
  { status_code := 200
    headers := [("Content-Type", "multipart/x-mixed-replace; boundary=B")]
    raw := ("--B\r\nContent-Type: image/jpeg\r\nContent-Length: 4\r\n\r\n".data.map
        Char.toNat) ++ [0xFF, 0xD8, 0xFF, 0xD9] }

def envC1 : Env :=
  { httpCall := fun u =>
      if u = "snapB" then
        some { Result := some { status_code := 404, headers := [], raw := [] }
               Url := "snapB", FullBodyBuffer := none }
      else if u = "streamB" then
        some { Result := some respC1ok, Url := "streamB", FullBodyBuffer := none }
      else none
    webcamConfig := some camsC8
    defaultCameraName := none }

theorem claim_C1_witness : getSnapshotInternal envC1 (some "CamB") = none := by
  have h := (claim_C1 envC1 (some "CamB")).2
    (Or.inr ⟨"snapB", rfl, Or.inr ⟨_, rfl, Or.inr ⟨_, rfl, by decide⟩⟩⟩)
  exact h.trans (by rfl)

/-- Counterexample to claim C4: a JPEG whose APP0 identifier is
`4A 46 49 46 05 07` (`JFIF` then a non-zero 5th byte and a non-zero 6th
byte), which is non-conformant under the claim's own condition (6th byte
non-zero).  The claim says the 6th byte is forced to zero; the code instead
forces the 5th byte (the identifier's terminator, line 499) to zero and
never touches the 6th, which stays `0x07`. -/
theorem claim_C4_counterexample :
    ensureJpegBuf
        [0xFF, 0xD8, 0xFF, 0xE0, 0x00, 0x10, 0x4A, 0x46, 0x49, 0x46, 0x05, 0x07, 0x09] =
      [0xFF, 0xD8, 0xFF, 0xE0, 0x00, 0x10, 0x4A, 0x46, 0x49, 0x46, 0x00, 0x07, 0x09] ∧
    List.getD
        (ensureJpegBuf
          [0xFF, 0xD8, 0xFF, 0xE0, 0x00, 0x10, 0x4A, 0x46, 0x49, 0x46, 0x05, 0x07, 0x09])
        11 0 ≠ 0 := by
  exact ⟨by decide, by decide⟩

/-- Claim C4 as amended: a buffer not starting with `FF D8` is returned
unchanged; for a JPEG whose APP0 segment (here the first segment after SOI)
carries a non-conformant identifier, each zero byte among the first 4
identifier bytes is rewritten to the matching ASCII byte of `JFIF` and the
5th byte is forced to zero while the 6th byte is left unchanged (a fully
zeroed identifier afterwards reads `4A 46 49 46 00`); a buffer whose
identifier is conformant is returned byte-for-byte unchanged. -/
theorem claim_C4 :
    (∀ buf : List Nat, buf.take 2 ≠ [0xFF, 0xD8] → ensureJpegBuf buf = buf) ∧
    (∀ (l1 l2 b0 b1 b2 b3 b4 b5 : Nat) (rest : List Nat),
       (b0 = 0 ∨ b1 = 0 ∨ b2 = 0 ∨ b3 = 0 ∨ b4 = 0 ∨ b5 ≠ 0) →
       ensureJpegBuf
           (0xFF :: 0xD8 :: 0xFF :: 0xE0 :: l1 :: l2 ::
             b0 :: b1 :: b2 :: b3 :: b4 :: b5 :: rest) =
         0xFF :: 0xD8 :: 0xFF :: 0xE0 :: l1 :: l2 ::
           fixByte b0 0x4A :: fixByte b1 0x46 :: fixByte b2 0x49 ::
           fixByte b3 0x46 :: 0 :: b5 :: rest) ∧
    (∀ (l1 l2 b0 b1 b2 b3 b4 b5 : Nat) (rest : List Nat),
       b0 ≠ 0 → b1 ≠ 0 → b2 ≠ 0 → b3 ≠ 0 → b4 ≠ 0 → b5 = 0 →
       ensureJpegBuf
           (0xFF :: 0xD8 :: 0xFF :: 0xE0 :: l1 :: l2 ::
             b0 :: b1 :: b2 :: b3 :: b4 :: b5 :: rest) =
         0xFF :: 0xD8 :: 0xFF :: 0xE0 :: l1 :: l2 ::
           b0 :: b1 :: b2 :: b3 :: b4 :: b5 :: rest) := by
  refine ⟨?_, ?_, ?_⟩
  · intro buf h
    match buf with
    | [] => rfl
    | [x] => rfl
    | x :: y :: t =>
      show (if x = 0xFF ∧ y = 0xD8 then _ else _) = _
      rw [if_neg]
      rintro ⟨rfl, rfl⟩
      exact h rfl
  · intro l1 l2 b0 b1 b2 b3 b4 b5 rest hcond
    have hneeds :
        app0Needs
            (0xFF :: 0xD8 :: 0xFF :: 0xE0 :: l1 :: l2 ::
              b0 :: b1 :: b2 :: b3 :: b4 :: b5 :: rest) 6 = some true := by
      show (if b0 = 0 then some true else if b1 = 0 then some true
            else if b2 = 0 then some true else if b3 = 0 then some true
            else if b4 = 0 then some true else some (b5 != 0)) = some true
      rcases hcond with h | h | h | h | h | h <;> simp [h]
    calc
      ensureJpegBuf
          (0xFF :: 0xD8 :: 0xFF :: 0xE0 :: l1 :: l2 ::
            b0 :: b1 :: b2 :: b3 :: b4 :: b5 :: rest) =
          (match app0Needs
              (0xFF :: 0xD8 :: 0xFF :: 0xE0 :: l1 :: l2 ::
                b0 :: b1 :: b2 :: b3 :: b4 :: b5 :: rest) 6 with
           | none => 0xFF :: 0xD8 :: 0xFF :: 0xE0 :: l1 :: l2 ::
               b0 :: b1 :: b2 :: b3 :: b4 :: b5 :: rest
           | some false => 0xFF :: 0xD8 :: 0xFF :: 0xE0 :: l1 :: l2 ::
               b0 :: b1 :: b2 :: b3 :: b4 :: b5 :: rest
           | some true => jfifRewrite
               (0xFF :: 0xD8 :: 0xFF :: 0xE0 :: l1 :: l2 ::
                 b0 :: b1 :: b2 :: b3 :: b4 :: b5 :: rest) 6) := rfl
      _ = jfifRewrite
            (0xFF :: 0xD8 :: 0xFF :: 0xE0 :: l1 :: l2 ::
              b0 :: b1 :: b2 :: b3 :: b4 :: b5 :: rest) 6 := by rw [hneeds]
      _ = 0xFF :: 0xD8 :: 0xFF :: 0xE0 :: l1 :: l2 ::
            fixByte b0 0x4A :: fixByte b1 0x46 :: fixByte b2 0x49 ::
            fixByte b3 0x46 :: 0 :: b5 :: rest := rfl
  · intro l1 l2 b0 b1 b2 b3 b4 b5 rest h0 h1 h2 h3 h4 h5
    have hneeds :
        app0Needs
            (0xFF :: 0xD8 :: 0xFF :: 0xE0 :: l1 :: l2 ::
              b0 :: b1 :: b2 :: b3 :: b4 :: b5 :: rest) 6 = some false := by
      show (if b0 = 0 then some true else if b1 = 0 then some true
            else if b2 = 0 then some true else if b3 = 0 then some true
            else if b4 = 0 then some true else some (b5 != 0)) = some false
      simp [h0, h1, h2, h3, h4, h5]
    calc
      ensureJpegBuf
          (0xFF :: 0xD8 :: 0xFF :: 0xE0 :: l1 :: l2 ::
            b0 :: b1 :: b2 :: b3 :: b4 :: b5 :: rest) =
          (match app0Needs
              (0xFF :: 0xD8 :: 0xFF :: 0xE0 :: l1 :: l2 ::
                b0 :: b1 :: b2 :: b3 :: b4 :: b5 :: rest) 6 with
           | none => 0xFF :: 0xD8 :: 0xFF :: 0xE0 :: l1 :: l2 ::
               b0 :: b1 :: b2 :: b3 :: b4 :: b5 :: rest
           | some false => 0xFF :: 0xD8 :: 0xFF :: 0xE0 :: l1 :: l2 ::
               b0 :: b1 :: b2 :: b3 :: b4 :: b5 :: rest
           | some true => jfifRewrite
               (0xFF :: 0xD8 :: 0xFF :: 0xE0 :: l1 :: l2 ::
                 b0 :: b1 :: b2 :: b3 :: b4 :: b5 :: rest) 6) := rfl
      _ = _ := by rw [hneeds]

/-- Witness for C4 at the spec's example shapes: a fully zeroed identifier
becomes `JFIF NUL`, and a non-JPEG buffer is unchanged. -/
theorem claim_C4_witness :
    ensureJpegBuf [0xFF, 0xD8, 0xFF, 0xE0, 0x00, 0x10, 0, 0, 0, 0, 0, 0, 0x99] =
      [0xFF, 0xD8, 0xFF, 0xE0, 0x00, 0x10, 0x4A, 0x46, 0x49, 0x46, 0x00, 0x00, 0x99] ∧
    ensureJpegBuf [0x89, 0x50, 0x4E, 0x47] = [0x89, 0x50, 0x4E, 0x47] := by
  constructor
  · have h := claim_C4.2.1 0x00 0x10 0 0 0 0 0 0 [0x99] (Or.inl rfl)
    exact h.trans (by decide)
  · exact claim_C4.1 [0x89, 0x50, 0x4E, 0x47] (by decide)

/-- A non-failed camera list resolves every camera name (explicit, default
or absent) to some setting item: the scan falls back to index 0 of the
non-empty list. -/
theorem settingObj_isSome_of_listWebcams (env : Env) (a : List WebcamSettingItem)
    (h : listWebcams env = some a) (cameraName : Option String) :
    (getWebcamSettingObj env cameraName).isSome = true := by
  have hne : a ≠ [] := by
    simp only [listWebcams] at h
    cases hc : env.webcamConfig with
    | none => simp [hc] at h
    | some b =>
      simp only [hc] at h
      by_cases he : b.isEmpty = true
      · simp [he] at h
      · simp only [he, if_false] at h
        injection h with h2
        subst h2
        simpa [List.isEmpty_iff] using he
  have hhead : a.head?.isSome = true := by
    cases a with
    | nil => exact absurd rfl hne
    | cons x t => rfl
  have key : ∀ nm : Option String,
      (match nm with
       | some n =>
         match a.find? (fun (i : WebcamSettingItem) => pyLowerStr i.Name = pyLowerStr n) with
         | some itm => some itm
         | none => a.head?
       | none => a.head?).isSome = true := by
    intro nm
    cases nm with
    | none => exact hhead
    | some n =>
      cases hf : a.find? (fun i => pyLowerStr i.Name = pyLowerStr n) with
      | some itm => simp [hf]
      | none => simpa [hf] using hhead
  simp only [getWebcamSettingObj, h]
  exact key _

/-- A resolved setting item presupposes a non-failed camera list. -/
theorem listWebcams_isSome_of_settingObj (env : Env) (cameraName : Option String)
    (itm : WebcamSettingItem) (h : getWebcamSettingObj env cameraName = some itm) :
    ∃ a, listWebcams env = some a := by
  simp only [getWebcamSettingObj] at h
  cases hL : listWebcams env with
  | none => rw [hL] at h; exact absurd h (by simp)
  | some a => exact ⟨a, rfl⟩

/-- `GetSnapshot` never raises: on every path of this model the whole chain
resolves to an `ok` result or `ok none` (the transform-header step is only
reached with a resolvable camera whenever an HTTP result exists). -/
theorem getSnapshot_isOk (env : Env) (cameraName : Option String) :
    (getSnapshot env cameraName).isOk = true := by
  cases hI : getSnapshotInternal env cameraName with
  | none => simp only [getSnapshot, hI]; rfl
  | some o =>
    have hobj : (getWebcamSettingObj env cameraName).isSome = true := by
      have hsome : ∃ a, listWebcams env = some a := by
        simp only [getSnapshotInternal] at hI
        cases hU : getSnapshotUrl env cameraName with
        | some u =>
          have : ∃ itm, getWebcamSettingObj env cameraName = some itm := by
            simp only [getSnapshotUrl] at hU
            cases ho : getWebcamSettingObj env cameraName with
            | none => rw [ho] at hU; exact absurd hU (by simp)
            | some itm => exact ⟨itm, rfl⟩
          obtain ⟨itm, ho⟩ := this
          exact listWebcams_isSome_of_settingObj env cameraName itm ho
        | none =>
          rw [hU] at hI
          cases hS : getWebcamStreamUrl env none with
          | none => rw [hS] at hI; exact absurd hI (by simp)
          | some su =>
            have : ∃ itm, getWebcamSettingObj env none = some itm := by
              simp only [getWebcamStreamUrl] at hS
              cases ho : getWebcamSettingObj env none with
              | none => rw [ho] at hS; exact absurd hS (by simp)
              | some itm => exact ⟨itm, rfl⟩
            obtain ⟨itm, ho⟩ := this
            obtain ⟨a, hL⟩ := listWebcams_isSome_of_settingObj env none itm ho
            exact ⟨a, hL⟩
      obtain ⟨a, hL⟩ := hsome
      exact settingObj_isSome_of_listWebcams env a hL cameraName
    obtain ⟨settings, hset⟩ := Option.isSome_iff_exists.mp hobj
    cases hR : o.Result with
    | none =>
      simp only [getSnapshot, hI, ensureJpegHeaderInfo, hR,
        addOeWebcamTransformHeader]
      rfl
    | some r =>
      have hread : ∃ buf, readAllContent o = some buf := by
        cases hB : o.FullBodyBuffer with
        | some b => exact ⟨b, by simp [readAllContent, hB]⟩
        | none => exact ⟨r.raw, by simp [readAllContent, hB, hR]⟩
      obtain ⟨buf, hbuf⟩ := hread
      simp only [getSnapshot, hI, ensureJpegHeaderInfo, hR, hbuf]
      simp only [addOeWebcamTransformHeader, setFullBodyBuffer, hR, hset]
      rfl

/-- `GetWebcamStream` never raises, for the same reason. -/
theorem getWebcamStream_isOk (env : Env) (cameraName : Option String) :
    (getWebcamStream env cameraName).isOk = true := by
  cases hI : getWebcamStreamInternal env cameraName with
  | none => simp only [getWebcamStream, hI]; rfl
  | some o =>
    have hobj : (getWebcamSettingObj env cameraName).isSome = true := by
      simp only [getWebcamStreamInternal] at hI
      cases hS : getWebcamStreamUrl env cameraName with
      | none => rw [hS] at hI; exact absurd hI (by simp)
      | some su =>
        have : ∃ itm, getWebcamSettingObj env cameraName = some itm := by
          simp only [getWebcamStreamUrl] at hS
          cases ho : getWebcamSettingObj env cameraName with
          | none => rw [ho] at hS; exact absurd hS (by simp)
          | some itm => exact ⟨itm, rfl⟩
        obtain ⟨itm, ho⟩ := this
        obtain ⟨a, hL⟩ := listWebcams_isSome_of_settingObj env cameraName itm ho
        exact settingObj_isSome_of_listWebcams env a hL cameraName
    obtain ⟨settings, hset⟩ := Option.isSome_iff_exists.mp hobj
    cases hR : o.Result with
    | none =>
      simp only [getWebcamStream, hI, addOeWebcamTransformHeader, hR]
      rfl
    | some r =>
      simp only [getWebcamStream, hI, addOeWebcamTransformHeader, hR, hset]
      rfl

/-- Claim C10: the oracle dispatch checks the snapshot sentinel first, so a
header map carrying both sentinels is dispatched as a snapshot request; a
map carrying neither makes the function raise to its caller; and the other
result-producing entry points of the produced interface (`GetSnapshot`,
`GetWebcamStream`) never raise, so this is the produced interface's only
exception path. -/
theorem claim_C10 (env : Env) (hdrs : List (String × String)) :
    (isSnapshotOracleRequest hdrs = true →
       makeSnapshotOrWebcamStreamRequest env hdrs =
         getSnapshot env (getOracleRequestCameraName hdrs)) ∧
    (isSnapshotOracleRequest hdrs = false →
       isWebcamStreamOracleRequest hdrs = false →
       ∃ msg, makeSnapshotOrWebcamStreamRequest env hdrs = Except.error msg) ∧
    (∀ name, (getSnapshot env name).isOk = true) ∧
    (∀ name, (getWebcamStream env name).isOk = true) := by
  refine ⟨?_, ?_, fun name => getSnapshot_isOk env name,
    fun name => getWebcamStream_isOk env name⟩
  · intro h
    simp only [makeSnapshotOrWebcamStreamRequest, h, if_true]
  · intro h1 h2
    refine ⟨"Webcam helper MakeSnapshotOrWebcamStreamRequest was called but the request did not have the oracle headers?", ?_⟩
    simp only [makeSnapshotOrWebcamStreamRequest, h1, h2, Bool.false_eq_true,
      if_false]

/-- Witness for C10: a map with both sentinels dispatches as a snapshot; a
map with neither raises. -/
def envC10 : Env :=
  { httpCall := fun _ => none, webcamConfig := some camsC8,
    defaultCameraName := none }

theorem claim_C10_witness :
    makeSnapshotOrWebcamStreamRequest envC10
        [("oe-snapshot", "1"), ("oe-webcamstream", "1")] = getSnapshot envC10 none ∧
    (∃ msg, makeSnapshotOrWebcamStreamRequest envC10
        [("x-other", "1")] = Except.error msg) := by
  constructor
  · have h := (claim_C10 envC10 [("oe-snapshot", "1"), ("oe-webcamstream", "1")]).1
      (by decide)
    exact h.trans (by rfl)
  · exact (claim_C10 envC10 [("x-other", "1")]).2.1 (by decide) (by decide)

/-- Claim C3: frame extraction resolves to no result (rather than raising)
whenever the stream response has no multipart content type, or the header
terminator is missing from the first 300 bytes, or the part-header scan
yields a zero-or-absent content length, or it yields no content type.  The
model's extractor is a total function into `Option`, so nothing escapes to
the caller on these paths. -/
theorem claim_C3 (env : Env) (url : String) (octo : OctoResult)
    (resp : HttpResponse)
    (hcall : env.httpCall url = some octo) (hres : octo.Result = some resp)
    (hcond :
      ¬ ("multipart/".data.isPrefixOf (respContentTypeLower resp.headers).data
          = true) ∨
      pyFind (utf8DecodeIgnore (resp.raw.take 300)) ['\r', '\n', '\r', '\n']
          = none ∨
      (∃ ct, scanPartHeadersAux
          (pySplitSeq (utf8DecodeIgnore (resp.raw.take 300)) ['\r', '\n']) 0 none
          = Except.ok (0, ct)) ∨
      (∃ n, scanPartHeadersAux
          (pySplitSeq (utf8DecodeIgnore (resp.raw.take 300)) ['\r', '\n']) 0 none
          = Except.ok (n, none))) :
    (getSnapshotFromStream env url).result = none := by
  simp only [getSnapshotFromStream, hcall, hres]
  by_cases hs : resp.status_code = 200
  · rw [if_neg (by simp [hs])]
    show extractFrame resp url = none
    rcases hcond with hA | hB | ⟨ct, hC⟩ | ⟨n, hD⟩
    · simp [extractFrame, hA]
    · by_cases hA2 :
        "multipart/".data.isPrefixOf (respContentTypeLower resp.headers).data = true
      · simp [extractFrame, hA2, hB]
      · simp [extractFrame, hA2]
    · by_cases hA2 :
        "multipart/".data.isPrefixOf (respContentTypeLower resp.headers).data = true
      · cases hF : pyFind (utf8DecodeIgnore (resp.raw.take 300))
            ['\r', '\n', '\r', '\n'] with
        | none => simp [extractFrame, hA2, hF]
        | some idx =>
          cases ct with
          | none => simp [extractFrame, hA2, hF, hC]
          | some c => simp [extractFrame, hA2, hF, hC]
      · simp [extractFrame, hA2]
    · by_cases hA2 :
        "multipart/".data.isPrefixOf (respContentTypeLower resp.headers).data = true
      · cases hF : pyFind (utf8DecodeIgnore (resp.raw.take 300))
            ['\r', '\n', '\r', '\n'] with
        | none => simp [extractFrame, hA2, hF]
        | some idx => simp [extractFrame, hA2, hF, hD]
      · simp [extractFrame, hA2]
  · rw [if_pos hs]

/-- Witness for C3: a 200 response whose content type is `text/html`. -/
def envC3 : Env :=
  { httpCall := fun u =>
      if u = "http://cam/stream" then
        some { Result := some { status_code := 200,
                                headers := [("Content-Type", "text/html")],
                                raw := [] }
               Url := "http://cam/stream", FullBodyBuffer := none }
      else none
    webcamConfig := none
    defaultCameraName := none }

theorem claim_C3_witness :
    (getSnapshotFromStream envC3 "http://cam/stream").result = none := by
  exact claim_C3 envC3 "http://cam/stream" _ _ rfl rfl (Or.inl (by decide))

/-- When the stream holds at least the desired number of bytes, the
two-stage bounded read (300 bytes, then exactly the remainder, trimmed
defensively) assembles exactly the stream's prefix of that size. -/
theorem assembleFrameBuffer_eq_take (raw : List Nat) (t : Nat)
    (h : t ≤ raw.length) :
    assembleFrameBuffer raw (t : Int) = raw.take t := by
  simp only [assembleFrameBuffer, List.length_take]
  by_cases hr : (0 : Int) < (t : Int) - ((min 300 raw.length : Nat) : Int)
  · rw [if_pos hr]
    have h300 : 300 ≤ raw.length := by omega
    have ht300 : 300 < t := by omega
    have htake : ((t : Int) - ((min 300 raw.length : Nat) : Int)).toNat = t - 300 := by
      omega
    rw [htake]
    have harith : 300 + (t - 300) = t := by omega
    have hcomb : raw.take 300 ++ (raw.drop 300).take (t - 300) = raw.take t := by
      calc raw.take 300 ++ (raw.drop 300).take (t - 300)
          = raw.take (300 + (t - 300)) := (List.take_add raw 300 (t - 300)).symm
        _ = raw.take t := by rw [harith]
    rw [hcomb]
    rw [if_neg (by simp only [List.length_take]; omega)]
  · rw [if_neg hr]
    simp only [List.length_take]
    by_cases htrim : (t : Int) < ((min 300 raw.length : Nat) : Int)
    · rw [if_pos htrim]
      simp only [pySliceTo]
      rw [if_pos (by omega)]
      have ht2 : ((t : Int)).toNat = t := by omega
      have hmin : t ⊓ 300 = t := by omega
      rw [ht2, List.take_take, hmin]
    · rw [if_neg htrim]
      have hteq : t = min 300 raw.length := by omega
      by_cases hL : 300 ≤ raw.length
      · have ht : t = 300 := by omega
        rw [ht]
      · have ht : t = raw.length := by omega
        rw [ht, List.take_length]
        exact List.take_of_length_le (by omega)

/-- Claim C2: for a multipart stream response (status 200) whose first
part's headers terminate with `CRLF CRLF` at index `idx` of the decoded
first 300 bytes, with the bytes of that header block all ASCII (so the
decoded index is the byte offset of the header block's end), whose header
lines declare content type `ct` and positive content length `n`, and whose
stream holds the declared payload, frame extraction returns a synthetic
successful result: status 200, headers exactly the part's content type and
a content length equal to the payload length, body exactly the `n` payload
bytes following the header block, with the response obtained and closed. -/
theorem claim_C2 (env : Env) (url : String) (octo : OctoResult)
    (resp : HttpResponse) (idx n : Nat) (ct : List Char)
    (hcall : env.httpCall url = some octo)
    (hres : octo.Result = some resp)
    (hstatus : resp.status_code = 200)
    (hmp : "multipart/".data.isPrefixOf (respContentTypeLower resp.headers).data
      = true)
    (hfind : pyFind (utf8DecodeIgnore (resp.raw.take 300)) ['\r', '\n', '\r', '\n']
      = some idx)
    (hascii : ∀ b ∈ resp.raw.take (idx + 4), b < 0x80)
    (hscan : scanPartHeadersAux
        (pySplitSeq (utf8DecodeIgnore (resp.raw.take 300)) ['\r', '\n']) 0 none
      = Except.ok ((n : Int), some ct))
    (hpos : 0 < n)
    (hlen : idx + 4 + n ≤ resp.raw.length) :
    ∃ resp2 : HttpResponse,
      getSnapshotFromStream env url =
        { result := some { Result := some resp2, Url := url,
                           FullBodyBuffer := some ((resp.raw.drop (idx + 4)).take n) }
          obtainedResponse := true, closedResponse := true } ∧
      resp2.status_code = 200 ∧
      resp2.headers = [("content-type", String.mk ct),
                       ("content-length", toString n)] ∧
      ((resp.raw.drop (idx + 4)).take n).length = n := by
  have himg : ((resp.raw.drop (idx + 4)).take n).length = n := by
    simp only [List.length_take, List.length_drop]
    omega
  have hcast : ((n : Int) + ((idx + 4 : Nat) : Int)) = ((idx + 4 + n : Nat) : Int) := by
    push_cast
    ring
  have hblen : (resp.raw.take (idx + 4 + n)).length = idx + 4 + n := by
    simp only [List.length_take]
    omega
  have hdrop : (resp.raw.take (idx + 4 + n)).drop (idx + 4) =
      (resp.raw.drop (idx + 4)).take n := by
    rw [List.drop_take]
    congr 1
    omega
  have hext : extractFrame resp url = some
      { Result := some
          { status_code := 200
            headers := [("content-type", String.mk ct),
                        ("content-length",
                          toString ((resp.raw.drop (idx + 4)).take n).length)]
            raw := resp.raw.drop (max (idx + 4 + n) 300) }
        Url := url
        FullBodyBuffer := some ((resp.raw.drop (idx + 4)).take n) } := by
    simp only [extractFrame]
    rw [if_neg (by simp [hmp])]
    simp only [hfind, hscan]
    rw [if_neg (by omega)]
    rw [hcast, assembleFrameBuffer_eq_take resp.raw (idx + 4 + n) hlen]
    rw [hblen]
    rw [if_neg (by simp)]
    rw [hdrop]
  refine ⟨{ status_code := 200
            headers := [("content-type", String.mk ct),
                        ("content-length",
                          toString ((resp.raw.drop (idx + 4)).take n).length)]
            raw := resp.raw.drop (max (idx + 4 + n) 300) }, ?_, rfl, ?_, himg⟩
  · simp only [getSnapshotFromStream, hcall, hres]
    rw [if_neg (by simp [hstatus])]
    rw [hext]
  · rw [himg]

/-- Witness environment for C2: the spec's synthetic multipart body
`--B CRLF Content-Type: image/jpeg CRLF Content-Length: 4 CRLF CRLF`
followed by the four bytes `FF D8 FF D9`. -/
def respC2mp : HttpResponse :=
  { status_code := 200
    headers := [("Content-Type", "multipart/x-mixed-replace; boundary=B")]
    raw := ("--B\r\nContent-Type: image/jpeg\r\nContent-Length: 4\r\n\r\n".data.map
        Char.toNat) ++ [0xFF, 0xD8, 0xFF, 0xD9] }

def octoC2 : OctoResult :=
  { Result := some respC2mp, Url := "http://cam/stream", FullBodyBuffer := none }

def envC2 : Env :=
  { httpCall := fun u => if u = "http://cam/stream" then some octoC2 else none
    webcamConfig := none
    defaultCameraName := none }

theorem claim_C2_witness :
    ∃ resp2 : HttpResponse,
      getSnapshotFromStream envC2 "http://cam/stream" =
        { result := some { Result := some resp2, Url := "http://cam/stream",
                           FullBodyBuffer := some [0xFF, 0xD8, 0xFF, 0xD9] }
          obtainedResponse := true, closedResponse := true } ∧
      resp2.status_code = 200 ∧
      resp2.headers = [("content-type", "image/jpeg"), ("content-length", "4")] := by
  obtain ⟨resp2, h1, h2, h3, h4⟩ :=
    claim_C2 envC2 "http://cam/stream" octoC2 respC2mp 48 4 "image/jpeg".data
      rfl rfl rfl (by decide) (by decide) (by decide) (by rfl) (by decide)
      (by decide)
  have hbody : (respC2mp.raw.drop (48 + 4)).take 4 = [0xFF, 0xD8, 0xFF, 0xD9] := by
    decide
  rw [hbody] at h1
  refine ⟨resp2, h1, h2, h3.trans (by decide)⟩

end OctoApp
